import Mathlib

/-!
Shallow embedding of src/erdos/operators.py: the transformation operators
(WhereOp, MapOp, MapManyOp, ConcatOp, UnzipOp) and the record/replay
subsystem (RecordOp, ReplayOp), together with proofs of the specified
properties.
-/

/-- A dynamic Python value, covering the payload shapes the operators probe
at runtime (the duck-typed iterability check in MapManyOp and the tuple
unpacking in UnzipOp). -/
inductive PyVal where
  | vInt : Int → PyVal
  | vStr : String → PyVal
  | vBool : Bool → PyVal
  | vNone : PyVal
  | vList : List PyVal → PyVal
  | vTuple : List PyVal → PyVal

/-- Python's iter(): lists and tuples yield their elements, a string yields
its characters as one-character strings, and other values raise TypeError
(modelled as none). -/
def pyIter : PyVal → Option (List PyVal)
  | .vList xs => some xs
  | .vTuple xs => some xs
  | .vStr s => some (s.toList.map (fun c => PyVal.vStr (String.mk [c])))
  | _ => none

/-- Python's two-target iterable unpacking, the semantics of the statement
(left_val, right_val) = msg.data in UnzipOp.on_msg: succeeds exactly when
the value is iterable and yields exactly two elements. -/
def pyUnpack2 (v : PyVal) : Except String (PyVal × PyVal) :=
  match pyIter v with
  | some [a, b] => Except.ok (a, b)
  | some _ => Except.error "ValueError: cannot unpack into exactly 2 values"
  | none => Except.error "TypeError: cannot unpack non-iterable"

/-- Modelled from the spec: erdos.timestamp.Timestamp (not under src/) is an
ordered logical clock value; Timestamp(t) constructs a new timestamp copied
from t. We model it as a list of coordinates. -/
structure Timestamp where
  coordinates : List Int

/-- The copy constructor Timestamp(msg.timestamp) used by UnzipOp.on_msg. -/
def Timestamp.clone (t : Timestamp) : Timestamp :=
  Timestamp.mk t.coordinates

/-- Modelled from the spec: erdos.message.Message (not under src/) is a
payload plus a logical timestamp plus an implicit originating stream name
(used for routing on replay). Message(data, timestamp) leaves the stream
name empty. -/
structure Message where
  data : PyVal
  timestamp : Timestamp
  stream_name : String

/-- The two-argument constructor Message(data, timestamp). -/
def Message.make (d : PyVal) (t : Timestamp) : Message :=
  Message.mk d t ""

/-- Modelled from the spec: erdos.data_stream.DataStream (not under src/) is
a named, typed channel; element types are reduced to type descriptors. -/
structure DataStream where
  data_type : String
  name : String

/-- An emission: a message sent on the output stream with the given name. -/
def Emission := String × Message

/- ------------------------------------------------------------------ -/
/- Transformation operators                                            -/
/- ------------------------------------------------------------------ -/

/-- WhereOp's per-instance fields. -/
structure WhereOp where
  output_stream_name : String
  where_lambda : Message → Bool

/-- WhereOp.on_msg: forwards the message unchanged iff the predicate holds.
Returns the operator state after the call together with the emissions. -/
def WhereOp.on_msg (op : WhereOp) (msg : Message) : WhereOp × List Emission :=
  if op.where_lambda msg then
    (op, [(op.output_stream_name, msg)])
  else
    (op, [])

/-- MapOp's per-instance fields. -/
structure MapOp where
  output_stream_name : String
  map_lambda : Message → PyVal

/-- MapOp.on_msg: sends Message(map_lambda(msg), msg.timestamp). -/
def MapOp.on_msg (op : MapOp) (msg : Message) : MapOp × List Emission :=
  (op, [(op.output_stream_name, Message.make (op.map_lambda msg) msg.timestamp)])

/-- MapManyOp's per-instance fields; map_lambda defaults to None, and the
Python truthiness test `if self._map_lambda` is modelled by the Option. -/
structure MapManyOp where
  output_stream_name : String
  map_lambda : Option (Message → PyVal)

/-- The value bound to `data` by the first branch of MapManyOp.on_msg:
the mapped payload when a map_lambda is present, msg.data otherwise. -/
def MapManyOp.premap (op : MapManyOp) (msg : Message) : PyVal :=
  match op.map_lambda with
  | some f => f msg
  | none => msg.data

/-- MapManyOp.on_msg, line for line: after computing `data` (premap), the
code rebinds `data = iter(msg.data)` — iterating the ORIGINAL payload —
and only on TypeError falls back to `[data]`, the single premapped value.
Each element is sent as Message(val, msg.timestamp). -/
def MapManyOp.on_msg (op : MapManyOp) (msg : Message) : MapManyOp × List Emission :=
  let data := op.premap msg
  let elems :=
    match pyIter msg.data with
    | some xs => xs
    | none => [data]
  (op, elems.map (fun v => (op.output_stream_name, Message.make v msg.timestamp)))

/-- ConcatOp's per-instance fields. -/
structure ConcatOp where
  output_stream_name : String

/-- ConcatOp.on_msg: forwards the message unchanged. -/
def ConcatOp.on_msg (op : ConcatOp) (msg : Message) : ConcatOp × List Emission :=
  (op, [(op.output_stream_name, msg)])

/-- UnzipOp's per-instance fields. -/
structure UnzipOp where
  output_stream_name1 : String
  output_stream_name2 : String

/-- UnzipOp.on_msg: unpacks msg.data into two values (Python iterable
unpacking, which is fatal on a shape violation), then sends each wrapped in
a new message carrying Timestamp(msg.timestamp). -/
def UnzipOp.on_msg (op : UnzipOp) (msg : Message) :
    Except String (UnzipOp × List Emission) :=
  match pyUnpack2 msg.data with
  | Except.ok (left_val, right_val) =>
      Except.ok (op,
        [(op.output_stream_name1, Message.make left_val msg.timestamp.clone),
         (op.output_stream_name2, Message.make right_val msg.timestamp.clone)])
  | Except.error e => Except.error e

/- ------------------------------------------------------------------ -/
/- Recorder                                                            -/
/- ------------------------------------------------------------------ -/

/-- One pickled value in the record file, in write order: the manifest
(the list of (data_type, name) pairs) or a full message. -/
inductive FileRecord where
  | manifestRec : List (String × String) → FileRecord
  | messageRec : Message → FileRecord

/-- A persisted stream file: the manifest followed by the recorded
messages, in write order (the layout of the pickle stream). -/
structure ReplayFile where
  manifest : List (String × String)
  messages : List Message

/-- The pickle stream of a file, value by value: the manifest first, then
each message in write order. -/
def ReplayFile.dumpOrder (f : ReplayFile) : List FileRecord :=
  FileRecord.manifestRec f.manifest :: f.messages.map FileRecord.messageRec

/-- The manifest RecordOp.execute writes: (data_type, name) for every
declared input stream, taken from self.input_streams. -/
def RecordOp.manifest (input_streams : List DataStream) : List (String × String) :=
  input_streams.map (fun s => (s.data_type, s.name))

/-- Whether a message arriving on a stream reaches RecordOp.record_data:
setup_streams applies input_streams.filter_name(filter) before registering
the callback, so only messages of the matching stream fire it; a None
filter leaves the view unfiltered. -/
def RecordOp.passes (filter : Option String) (msg : Message) : Bool :=
  match filter with
  | some f => msg.stream_name == f
  | none => true

/-- Modelled from the spec: the Op base class (erdos.op, not under src/)
binds self.input_streams to the full declared input-stream list; the name
filter in RecordOp.setup_streams only narrows the local callback view, not
this attribute. A full run of RecordOp.execute therefore dumps the
manifest of the full declared list, then appends each arriving message
that passes the filter, in arrival order. -/
def RecordOp.run (declared : List DataStream) (filter : Option String)
    (arrivals : List Message) : ReplayFile :=
  ReplayFile.mk (RecordOp.manifest declared)
    (arrivals.filter (RecordOp.passes filter))

/- ------------------------------------------------------------------ -/
/- Player                                                              -/
/- ------------------------------------------------------------------ -/

/-- ReplayOp.setup_streams: loads the manifest from the file and declares
one DataStream(data_type, name) per entry, in manifest order. -/
def ReplayOp.setup_streams (f : ReplayFile) : List DataStream :=
  f.manifest.map (fun e => DataStream.mk e.1 e.2)

/-- The replay cursor: the messages not yet read, and whether self._file
has been closed (set on the first EOFError). -/
structure ReplayState where
  remaining : List Message
  closed : Bool

/-- The cursor right after ReplayOp.execute opens the file and reads past
the manifest. -/
def ReplayState.init (f : ReplayFile) : ReplayState :=
  ReplayState.mk f.messages false

/-- self.get_output_stream(name): lookup of the declared output stream by
name. -/
def ReplayOp.get_output_stream (streams : List DataStream) (name : String) :
    Option DataStream :=
  streams.find? (fun s => s.name == name)

/-- Modelled from the spec for the lookup-failure branch (get_output_stream
lives in erdos.op, not under src/): an unknown stream name is fatal.
ReplayOp.publish_data itself is translated line for line: return
immediately if the file is closed; otherwise load one message and send it
on the stream named msg.stream_name, and on EOFError log and close the
file. The result is the new cursor plus the emission, if any. -/
def ReplayOp.publish_data (streams : List DataStream) (s : ReplayState) :
    Except String (ReplayState × Option (DataStream × Message)) :=
  if s.closed then
    Except.ok (s, none)
  else
    match s.remaining with
    | [] => Except.ok (ReplayState.mk s.remaining true, none)
    | msg :: rest =>
        match ReplayOp.get_output_stream streams msg.stream_name with
        | some st => Except.ok (ReplayState.mk rest s.closed, some (st, msg))
        | none => Except.error "KeyError: unknown output stream"

/-- n iterations of the unbounded run loop of ReplayOp.execute
(frequency 0): `while True: self.publish_data()`. The loop guard is the
constant True, so the loop body runs at every step; fuel n observes the
first n iterations of the non-terminating loop. -/
def ReplayOp.executeSteps (streams : List DataStream) :
    ReplayState → Nat → Except String (ReplayState × List (DataStream × Message))
  | s, 0 => Except.ok (s, [])
  | s, Nat.succ n =>
      match ReplayOp.publish_data streams s with
      | Except.ok (s1, out) =>
          match ReplayOp.executeSteps streams s1 n with
          | Except.ok (s2, outs) => Except.ok (s2, out.toList ++ outs)
          | Except.error e => Except.error e
      | Except.error e => Except.error e

/- ------------------------------------------------------------------ -/
/- Helper lemmas                                                       -/
/- ------------------------------------------------------------------ -/

/-- The emission publish_data produces for a message: the declared stream
found by name, paired with the message. -/
def routeMsg (streams : List DataStream) (m : Message) : DataStream × Message :=
  ((ReplayOp.get_output_stream streams m.stream_name).getD (DataStream.mk "" ""), m)

theorem executeSteps_closed_aux (streams : List DataStream) (rem : List Message)
    (n : Nat) :
    ReplayOp.executeSteps streams (ReplayState.mk rem true) n =
      Except.ok (ReplayState.mk rem true, []) := by
  induction n with
  | zero => rfl
  | succ n ih =>
      simp [ReplayOp.executeSteps, ReplayOp.publish_data, ih]

theorem executeSteps_drain_aux (streams : List DataStream) (msgs : List Message)
    (extra : Nat)
    (h : ∀ m ∈ msgs, (ReplayOp.get_output_stream streams m.stream_name).isSome = true) :
    ReplayOp.executeSteps streams (ReplayState.mk msgs false)
        (msgs.length + 1 + extra) =
      Except.ok (ReplayState.mk [] true, msgs.map (routeMsg streams)) := by
  induction msgs with
  | nil =>
      simp only [List.length_nil, Nat.zero_add, List.map_nil]
      show ReplayOp.executeSteps streams (ReplayState.mk [] false) (1 + extra) = _
      rw [Nat.add_comm 1 extra]
      simp [ReplayOp.executeSteps, ReplayOp.publish_data, executeSteps_closed_aux]
  | cons m ms ih =>
      have hm : (ReplayOp.get_output_stream streams m.stream_name).isSome = true :=
        h m (List.mem_cons_self m ms)
      obtain ⟨st, hst⟩ := Option.isSome_iff_exists.mp hm
      have ihw := ih (fun x hx => h x (List.mem_cons_of_mem m hx))
      have hfuel : (m :: ms).length + 1 + extra = Nat.succ (ms.length + 1 + extra) := by
        simp [List.length_cons]
        omega
      rw [hfuel]
      simp [ReplayOp.executeSteps, ReplayOp.publish_data, hst, ihw, routeMsg]

/- ------------------------------------------------------------------ -/
/- Claim theorems                                                      -/
/- ------------------------------------------------------------------ -/

/-- C1 (code bug evaluation): with a pre-mapping function that maps every
message to [10, 20] and an iterable input payload [1, 2], MapManyOp.on_msg
emits the elements of the ORIGINAL payload, [1, 2], not the elements of the
mapped payload [10, 20]: the line `data = iter(msg.data)` overwrites the
just-computed mapped value, contradicting the specified behaviour of the
Expander. -/
theorem mapMany_bug_emits_original_not_mapped :
    (MapManyOp.on_msg
        (MapManyOp.mk "out" (some (fun _ => PyVal.vList [PyVal.vInt 10, PyVal.vInt 20])))
        (Message.mk (PyVal.vList [PyVal.vInt 1, PyVal.vInt 2]) (Timestamp.mk []) "s")).2.map
        (fun e => e.2.data)
      = [PyVal.vInt 1, PyVal.vInt 2] := by
  rfl

/-- C3: after the player's file is closed (the state entered on the first
EOFError), every further publish_data call is a no-op: it returns ok (no
exception), leaves the cursor unchanged (no read, still closed so no
re-open) and emits nothing; and the first read past the last message is
exactly what closes the file, also emitting nothing. -/
theorem publish_data_after_eof_noop :
    (∀ (streams : List DataStream) (rem : List Message),
        ReplayOp.publish_data streams (ReplayState.mk rem true) =
          Except.ok (ReplayState.mk rem true, none))
    ∧ (∀ (streams : List DataStream),
        ReplayOp.publish_data streams (ReplayState.mk [] false) =
          Except.ok (ReplayState.mk [] true, none)) := by
  constructor
  · intro streams rem
    rfl
  · intro streams
    rfl

/-- C6: on a payload that is the pair (a, b), UnzipOp.on_msg emits exactly
one message with payload a on the first output stream and one with payload
b on the second, each carrying the freshly constructed Timestamp(
msg.timestamp), which is structurally equal to the input timestamp. -/
theorem unzip_pair_emissions :
    ∀ (op : UnzipOp) (a b : PyVal) (ts : Timestamp) (sn : String),
      UnzipOp.on_msg op (Message.mk (PyVal.vTuple [a, b]) ts sn) =
        Except.ok (op,
          [(op.output_stream_name1, Message.make a ts.clone),
           (op.output_stream_name2, Message.make b ts.clone)])
      ∧ ts.clone = ts := by
  intro op a b ts sn
  exact ⟨rfl, rfl⟩

/-- C7: the per-message handlers of all five transformation operators are
stateless: each returns the operator's fields unchanged (UnzipOp whenever
its call completes without a shape-violation error). -/
theorem operators_stateless :
    (∀ (op : WhereOp) (m : Message), (WhereOp.on_msg op m).1 = op)
    ∧ (∀ (op : MapOp) (m : Message), (MapOp.on_msg op m).1 = op)
    ∧ (∀ (op : MapManyOp) (m : Message), (MapManyOp.on_msg op m).1 = op)
    ∧ (∀ (op : ConcatOp) (m : Message), (ConcatOp.on_msg op m).1 = op)
    ∧ (∀ (op : UnzipOp) (m : Message) (r : UnzipOp × List Emission),
        UnzipOp.on_msg op m = Except.ok r → r.1 = op) := by
  refine ⟨?_, ?_, ?_, ?_, ?_⟩
  · intro op m
    unfold WhereOp.on_msg
    split <;> rfl
  · intro op m
    rfl
  · intro op m
    rfl
  · intro op m
    rfl
  · intro op m r h
    unfold UnzipOp.on_msg at h
    split at h
    · cases h
      rfl
    · cases h

/-- C7 witness: the statelessness theorem at concrete operators and a
concrete message, discharging the success hypothesis of the UnzipOp
conjunct. -/
theorem operators_stateless_witness :
    (UnzipOp.mk "l" "r",
        [((("l" : String)), Message.make (PyVal.vInt 1) (Timestamp.mk []).clone),
         ((("r" : String)), Message.make (PyVal.vInt 2) (Timestamp.mk []).clone)]).1
      = UnzipOp.mk "l" "r" :=
  operators_stateless.2.2.2.2 (UnzipOp.mk "l" "r")
    (Message.mk (PyVal.vTuple [PyVal.vInt 1, PyVal.vInt 2]) (Timestamp.mk []) "s")
    _ rfl

/-- C8: in MapManyOp.on_msg, whenever the original payload msg.data is
iterable the emitted payloads are exactly its elements in order (whether or
not a pre-mapping function is supplied: the mapped value is discarded), and
whenever msg.data is not iterable exactly one message is emitted, wrapping
the premapped value, with the input timestamp. -/
theorem mapMany_iterates_original_payload :
    ∀ (op : MapManyOp) (msg : Message),
      (∀ elems, pyIter msg.data = some elems →
        (MapManyOp.on_msg op msg).2 =
          elems.map (fun v => (op.output_stream_name, Message.make v msg.timestamp)))
      ∧ (pyIter msg.data = none →
        (MapManyOp.on_msg op msg).2 =
          [(op.output_stream_name, Message.make (op.premap msg) msg.timestamp)]) := by
  intro op msg
  constructor
  · intro elems h
    simp [MapManyOp.on_msg, h]
  · intro h
    simp [MapManyOp.on_msg, h]

/-- C8 witness: the theorem at a mapping operator and the iterable payload
[1, 2] (the mapped value 99 is discarded), and at a non-iterable payload 7
(the mapped value 99 is emitted). -/
theorem mapMany_iterates_original_payload_witness :
    (MapManyOp.on_msg
        (MapManyOp.mk "out" (some (fun _ => PyVal.vInt 99)))
        (Message.mk (PyVal.vList [PyVal.vInt 1, PyVal.vInt 2]) (Timestamp.mk []) "s")).2 =
      [PyVal.vInt 1, PyVal.vInt 2].map
        (fun v => (("out" : String), Message.make v (Timestamp.mk [])))
    ∧ (MapManyOp.on_msg
        (MapManyOp.mk "out" (some (fun _ => PyVal.vInt 99)))
        (Message.mk (PyVal.vInt 7) (Timestamp.mk []) "s")).2 =
      [(("out" : String),
        Message.make
          ((MapManyOp.mk "out" (some (fun _ => PyVal.vInt 99))).premap
            (Message.mk (PyVal.vInt 7) (Timestamp.mk []) "s"))
          (Timestamp.mk []))] :=
  ⟨(mapMany_iterates_original_payload
      (MapManyOp.mk "out" (some (fun _ => PyVal.vInt 99)))
      (Message.mk (PyVal.vList [PyVal.vInt 1, PyVal.vInt 2]) (Timestamp.mk []) "s")).1
      [PyVal.vInt 1, PyVal.vInt 2] rfl,
   (mapMany_iterates_original_payload
      (MapManyOp.mk "out" (some (fun _ => PyVal.vInt 99)))
      (Message.mk (PyVal.vInt 7) (Timestamp.mk []) "s")).2 rfl⟩

/-- C4: the record file starts with the manifest built from the FULL
declared input-stream list — independently of any configured name filter —
and everything after it is exactly the filter-passing messages, in arrival
order. -/
theorem record_manifest_full_and_first :
    ∀ (declared : List DataStream) (filter : Option String) (arrivals : List Message),
      (RecordOp.run declared filter arrivals).dumpOrder.head? =
          some (FileRecord.manifestRec (RecordOp.manifest declared))
      ∧ (RecordOp.run declared filter arrivals).dumpOrder.tail =
          (arrivals.filter (RecordOp.passes filter)).map FileRecord.messageRec
      ∧ (∀ filter2, (RecordOp.run declared filter arrivals).manifest =
          (RecordOp.run declared filter2 arrivals).manifest) := by
  intro declared filter arrivals
  exact ⟨rfl, rfl, fun _ => rfl⟩

/-- C5: ReplayOp.setup_streams declares exactly one output stream per
manifest entry, in manifest order, with exactly the recorded element type
and name; and whenever publish_data emits a message it does so on the
stream obtained by looking up the message's recorded originating-stream
name (so the routed stream's name equals the message's stream name). -/
theorem replay_setup_and_routing :
    (∀ f : ReplayFile,
        (ReplayOp.setup_streams f).length = f.manifest.length
        ∧ (ReplayOp.setup_streams f).map (fun s => (s.data_type, s.name)) = f.manifest)
    ∧ (∀ (streams : List DataStream) (s s' : ReplayState) (st : DataStream) (m : Message),
        ReplayOp.publish_data streams s = Except.ok (s', some (st, m)) →
          st.name = m.stream_name
          ∧ ReplayOp.get_output_stream streams m.stream_name = some st) := by
  constructor
  · intro f
    constructor
    · simp [ReplayOp.setup_streams]
    · simp only [ReplayOp.setup_streams, List.map_map]
      exact List.map_id f.manifest
  · intro streams s s' st m h
    obtain ⟨rem, closed⟩ := s
    cases closed with
    | true => simp [ReplayOp.publish_data] at h
    | false =>
        cases rem with
        | nil => simp [ReplayOp.publish_data] at h
        | cons msg rest =>
            rcases hl : ReplayOp.get_output_stream streams msg.stream_name with _ | st0
            · simp [ReplayOp.publish_data, hl] at h
            · simp only [ReplayOp.publish_data, hl, Bool.false_eq_true, if_false,
                Except.ok.injEq, Prod.mk.injEq, Option.some.injEq] at h
              obtain ⟨-, hst, hm⟩ := h
              subst hm
              subst hst
              exact ⟨by simpa using List.find?_some hl, hl⟩

/-- C5 witness: the routing conjunct applied at a concrete one-stream file
state, discharging the success hypothesis by evaluation. -/
theorem replay_setup_and_routing_witness :
    (DataStream.mk "int" "a").name =
        (Message.mk (PyVal.vInt 1) (Timestamp.mk []) "a").stream_name
    ∧ ReplayOp.get_output_stream [DataStream.mk "int" "a"]
        (Message.mk (PyVal.vInt 1) (Timestamp.mk []) "a").stream_name =
        some (DataStream.mk "int" "a") :=
  replay_setup_and_routing.2 [DataStream.mk "int" "a"]
    (ReplayState.mk [Message.mk (PyVal.vInt 1) (Timestamp.mk []) "a"] false)
    (ReplayState.mk [] false)
    (DataStream.mk "int" "a")
    (Message.mk (PyVal.vInt 1) (Timestamp.mk []) "a")
    rfl

/-- C9: with frequency 0, ReplayOp.execute runs `while True:
self.publish_data()`: once the file is closed (end-of-file), every number
of further loop iterations leaves the cursor unchanged and emits nothing —
the loop spins forever as a no-op and never returns — and before that, for
every surplus fuel amount the loop is still running after draining the
whole file, emitting exactly its messages. -/
theorem replay_unbounded_loop_spins_forever :
    (∀ (streams : List DataStream) (rem : List Message) (n : Nat),
        ReplayOp.executeSteps streams (ReplayState.mk rem true) n =
          Except.ok (ReplayState.mk rem true, []))
    ∧ (∀ (streams : List DataStream) (msgs : List Message) (extra : Nat),
        (∀ m ∈ msgs,
            (ReplayOp.get_output_stream streams m.stream_name).isSome = true) →
        ReplayOp.executeSteps streams (ReplayState.mk msgs false)
            (msgs.length + 1 + extra) =
          Except.ok (ReplayState.mk [] true, msgs.map (routeMsg streams))) :=
  ⟨executeSteps_closed_aux, executeSteps_drain_aux⟩

/-- C9 witness: the drain conjunct at a concrete one-message file with two
surplus iterations, hypothesis discharged by evaluation. -/
theorem replay_unbounded_loop_spins_forever_witness :
    (∀ m ∈ [Message.mk (PyVal.vInt 1) (Timestamp.mk []) "a"],
        (ReplayOp.get_output_stream [DataStream.mk "int" "a"]
            m.stream_name).isSome = true)
    ∧ ReplayOp.executeSteps [DataStream.mk "int" "a"]
        (ReplayState.mk [Message.mk (PyVal.vInt 1) (Timestamp.mk []) "a"] false)
        ([Message.mk (PyVal.vInt 1) (Timestamp.mk []) "a"].length + 1 + 2) =
      Except.ok (ReplayState.mk [] true,
        [Message.mk (PyVal.vInt 1) (Timestamp.mk []) "a"].map
          (routeMsg [DataStream.mk "int" "a"])) :=
  ⟨by decide,
   replay_unbounded_loop_spins_forever.2 [DataStream.mk "int" "a"]
     [Message.mk (PyVal.vInt 1) (Timestamp.mk []) "a"] 2 (by decide)⟩

/-- Replaying a file the recorder just wrote reconstructs exactly the
declared input streams (structure eta: the manifest preserves both
fields). -/
theorem setup_streams_run_aux (declared : List DataStream) (filter : Option String)
    (arrivals : List Message) :
    ReplayOp.setup_streams (RecordOp.run declared filter arrivals) = declared := by
  simp only [ReplayOp.setup_streams, RecordOp.run, RecordOp.manifest, List.map_map]
  exact List.map_id declared

/-- C2: round trip. Record messages arriving on declared streams into a
file, then replay that file with unbounded cadence until past end-of-file:
every emission goes to the stream named by the message, the emitted
messages are exactly the recorded ones in order, and hence per stream the
replayed (payload, timestamp) pairs form the same sequence, in the same
order, as recorded. -/
theorem record_replay_roundtrip :
    ∀ (declared : List DataStream) (filter : Option String) (arrivals : List Message)
      (name : String) (extra : Nat),
      (∀ m ∈ arrivals, ∃ s ∈ declared, s.name = m.stream_name) →
      ∃ out : List (DataStream × Message),
        ReplayOp.executeSteps
            (ReplayOp.setup_streams (RecordOp.run declared filter arrivals))
            (ReplayState.init (RecordOp.run declared filter arrivals))
            ((RecordOp.run declared filter arrivals).messages.length + 1 + extra) =
          Except.ok (ReplayState.mk [] true, out)
        ∧ (∀ e ∈ out, e.1.name = e.2.stream_name)
        ∧ out.map Prod.snd = (RecordOp.run declared filter arrivals).messages
        ∧ ((out.map Prod.snd).filter
              (fun m => m.stream_name == name)).map (fun m => (m.data, m.timestamp)) =
            ((RecordOp.run declared filter arrivals).messages.filter
              (fun m => m.stream_name == name)).map (fun m => (m.data, m.timestamp)) := by
  intro declared filter arrivals name extra h
  have hset := setup_streams_run_aux declared filter arrivals
  have hres : ∀ m ∈ (RecordOp.run declared filter arrivals).messages,
      (ReplayOp.get_output_stream declared m.stream_name).isSome = true := by
    intro m hm
    have hm' : m ∈ arrivals := List.mem_of_mem_filter hm
    obtain ⟨s, hs, hname⟩ := h m hm'
    unfold ReplayOp.get_output_stream
    rw [List.find?_isSome]
    exact ⟨s, hs, by simp [hname]⟩
  have hsnd : ((RecordOp.run declared filter arrivals).messages.map
      (routeMsg declared)).map Prod.snd = (RecordOp.run declared filter arrivals).messages := by
    simp only [List.map_map]
    exact List.map_id _
  refine ⟨(RecordOp.run declared filter arrivals).messages.map (routeMsg declared),
    ?_, ?_, hsnd, ?_⟩
  · rw [hset]
    exact executeSteps_drain_aux declared _ extra hres
  · intro e he
    obtain ⟨m, hm, rfl⟩ := List.mem_map.mp he
    obtain ⟨st, hst⟩ := Option.isSome_iff_exists.mp (hres m hm)
    have hpred := List.find?_some hst
    simp only [routeMsg, hst, Option.getD_some]
    simpa using hpred
  · rw [hsnd]

/-- C10: the unpacking in UnzipOp.on_msg succeeds exactly when the payload
is iterable yielding exactly two values — not only for 2-tuples: a
2-element list and the 2-character string "ab" are both split into their
two elements, and an error is raised precisely in the remaining cases. -/
theorem unzip_unpacks_any_two_element_iterable :
    (∀ v : PyVal, (∃ r, pyUnpack2 v = Except.ok r) ↔ (∃ a b, pyIter v = some [a, b]))
    ∧ (∀ (op : UnzipOp) (a b : PyVal) (ts : Timestamp) (sn : String),
        UnzipOp.on_msg op (Message.mk (PyVal.vList [a, b]) ts sn) =
          Except.ok (op,
            [(op.output_stream_name1, Message.make a ts.clone),
             (op.output_stream_name2, Message.make b ts.clone)]))
    ∧ (∀ (op : UnzipOp) (ts : Timestamp) (sn : String),
        UnzipOp.on_msg op (Message.mk (PyVal.vStr "ab") ts sn) =
          Except.ok (op,
            [(op.output_stream_name1, Message.make (PyVal.vStr "a") ts.clone),
             (op.output_stream_name2, Message.make (PyVal.vStr "b") ts.clone)])) := by
  refine ⟨?_, ?_, ?_⟩
  · intro v
    constructor
    · rintro ⟨r, hr⟩
      unfold pyUnpack2 at hr
      rcases hpi : pyIter v with _ | xs <;> rw [hpi] at hr
      · simp at hr
      · rcases xs with _ | ⟨a, _ | ⟨b, _ | ⟨c, t⟩⟩⟩
        · simp at hr
        · simp at hr
        · exact ⟨a, b, rfl⟩
        · simp at hr
    · rintro ⟨a, b, hpi⟩
      refine ⟨(a, b), ?_⟩
      unfold pyUnpack2
      rw [hpi]
  · intro op a b ts sn
    rfl
  · intro op ts sn
    rfl

/-- C10 witness: a 2-element list payload unpacks successfully, by the
characterization applied at a concrete value. -/
theorem unzip_unpacks_any_two_element_iterable_witness :
    ∃ r, pyUnpack2 (PyVal.vList [PyVal.vInt 1, PyVal.vInt 2]) = Except.ok r :=
  (unzip_unpacks_any_two_element_iterable.1
      (PyVal.vList [PyVal.vInt 1, PyVal.vInt 2])).mpr
    ⟨PyVal.vInt 1, PyVal.vInt 2, rfl⟩

/-- C2 witness: the round trip at one declared stream "a" carrying one
message, hypothesis discharged by evaluation. -/
theorem record_replay_roundtrip_witness :
    (∀ m ∈ [Message.mk (PyVal.vInt 1) (Timestamp.mk []) "a"],
        ∃ s ∈ [DataStream.mk "int" "a"], s.name = m.stream_name)
    ∧ ∃ out : List (DataStream × Message),
        ReplayOp.executeSteps
            (ReplayOp.setup_streams (RecordOp.run [DataStream.mk "int" "a"] none
              [Message.mk (PyVal.vInt 1) (Timestamp.mk []) "a"]))
            (ReplayState.init (RecordOp.run [DataStream.mk "int" "a"] none
              [Message.mk (PyVal.vInt 1) (Timestamp.mk []) "a"]))
            ((RecordOp.run [DataStream.mk "int" "a"] none
              [Message.mk (PyVal.vInt 1) (Timestamp.mk []) "a"]).messages.length + 1 + 0) =
          Except.ok (ReplayState.mk [] true, out)
        ∧ (∀ e ∈ out, e.1.name = e.2.stream_name)
        ∧ out.map Prod.snd = (RecordOp.run [DataStream.mk "int" "a"] none
              [Message.mk (PyVal.vInt 1) (Timestamp.mk []) "a"]).messages
        ∧ ((out.map Prod.snd).filter
              (fun m => m.stream_name == "a")).map (fun m => (m.data, m.timestamp)) =
            ((RecordOp.run [DataStream.mk "int" "a"] none
              [Message.mk (PyVal.vInt 1) (Timestamp.mk []) "a"]).messages.filter
              (fun m => m.stream_name == "a")).map (fun m => (m.data, m.timestamp)) :=
  ⟨by decide,
   record_replay_roundtrip [DataStream.mk "int" "a"] none
     [Message.mk (PyVal.vInt 1) (Timestamp.mk []) "a"] "a" 0 (by decide)⟩
